import Mathlib

/-!
Verification of the bookie bookmark-manager data-model layer
(`src/server/bookie_server/blueprints/bookmark_manager/models.py`).

The embedding models:
* timezone-aware timestamps (`DT`) as an instant (seconds since the Unix
  epoch) together with a display offset in minutes, matching Python's
  aware `datetime` semantics at whole-second granularity;
* the two entities `Bookmark` and `Tag` as mutually recursive records;
* serialized mappings as ordered association lists of `String × Val`,
  matching Python `dict` insertion order;
* fallible Python code (raising constructors, property getters that can
  raise) as `Except PyError` values.
-/

namespace Bookie

/-- A timezone-aware datetime: `instant` is seconds since the Unix epoch,
`offset` the display UTC offset in minutes.  Python aware datetimes compare
and convert by instant; `astimezone` changes only the display offset. -/
structure DT where
  instant : Int
  offset : Int
  deriving DecidableEq, Repr

/-- `datetime.astimezone(tzutc())`: same instant, display offset zero. -/
def astimezoneUtc (dt : DT) : DT := ⟨dt.instant, 0⟩

/-- Python `datetime` objects are always truthy. -/
def dtTruthy (_ : DT) : Bool := true

/-- Civil date from days since 1970-01-01 (proleptic Gregorian calendar). -/
def civilFromDays (z : Int) : Int × Int × Int :=
  let z := z + 719468
  let era := Int.ediv z 146097
  let doe := z - era * 146097
  let yoe := Int.ediv (doe - Int.ediv doe 1460 + Int.ediv doe 36524 - Int.ediv doe 146096) 365
  let y := yoe + era * 400
  let doy := doe - (365 * yoe + Int.ediv yoe 4 - Int.ediv yoe 100)
  let mp := Int.ediv (5 * doy + 2) 153
  let d := doy - Int.ediv (153 * mp + 2) 5 + 1
  let m := mp + (if mp < 10 then 3 else -9)
  (y + (if m ≤ 2 then 1 else 0), m, d)

/-- Days since 1970-01-01 from a civil date (proleptic Gregorian calendar). -/
def daysFromCivil (y m d : Int) : Int :=
  let y := y - (if m ≤ 2 then 1 else 0)
  let era := Int.ediv y 400
  let yoe := y - era * 400
  let doy := Int.ediv (153 * (m + (if m > 2 then -3 else 9)) + 2) 5 + d - 1
  let doe := yoe * 365 + Int.ediv yoe 4 - Int.ediv yoe 100 + doy
  era * 146097 + doe - 719468

/-- Zero-pad a nonnegative integer to two digits. -/
def pad2 (n : Int) : String :=
  (if n < 10 then "0" else "") ++ toString n

/-- Zero-pad a nonnegative integer to four digits. -/
def pad4 (n : Int) : String :=
  (if n < 10 then "000" else if n < 100 then "00" else if n < 1000 then "0" else "") ++ toString n

/-- Render a UTC offset in minutes as `±HH:MM` (Python `isoformat` style). -/
def offsetStr (o : Int) : String :=
  if o < 0 then "-" ++ pad2 (Int.ediv (-o) 60) ++ ":" ++ pad2 (Int.emod (-o) 60)
  else "+" ++ pad2 (Int.ediv o 60) ++ ":" ++ pad2 (Int.emod o 60)

/-- Python `datetime.isoformat()` for an aware datetime at whole-second
granularity: the civil fields in the datetime's own offset, then `±HH:MM`. -/
def isoformat (dt : DT) : String :=
  let loc := dt.instant + dt.offset * 60
  let days := Int.ediv loc 86400
  let sod := loc - days * 86400
  let ymd := civilFromDays days
  pad4 ymd.1 ++ "-" ++ pad2 ymd.2.1 ++ "-" ++ pad2 ymd.2.2 ++ "T" ++
    pad2 (Int.ediv sod 3600) ++ ":" ++ pad2 (Int.emod (Int.ediv sod 60) 60) ++ ":" ++
    pad2 (Int.emod sod 60) ++ offsetStr dt.offset

/-- The error taxonomy of the spec plus the attribute error Python raises on
dereferencing `None`. -/
inductive PyError where
  | validationError
  | constraintViolation
  | notFoundError
  | attributeError
  deriving DecidableEq, Repr

/-- Value of a decimal digit character, if it is one. -/
def digitVal (c : Char) : Option Nat :=
  if c.isDigit then some (c.toNat - 48) else none

/-- Read exactly `n` decimal digits from the front of the character list. -/
def readDigits (acc : Nat) : Nat → List Char → Option (Nat × List Char)
  | 0, cs => some (acc, cs)
  | _ + 1, [] => none
  | n + 1, c :: cs =>
    match digitVal c with
    | some v => readDigits (acc * 10 + v) n cs
    | none => none

/-- Consume an expected single character. -/
def expectChar (c : Char) : List Char → Option (List Char)
  | [] => none
  | c' :: cs => if c' = c then some cs else none

/-- Drop an optional fractional-seconds part (`.` followed by digits). -/
def dropFraction : List Char → List Char
  | '.' :: cs => cs.dropWhile Char.isDigit
  | cs => cs

/-- Parse the trailing UTC-offset part: empty (no offset, treated as UTC),
`Z`, or `±HH:MM`; yields the offset in minutes. -/
def readOffset : List Char → Option Int
  | [] => some 0
  | ['Z'] => some 0
  | c :: cs =>
    if c = '+' ∨ c = '-' then
      match readDigits 0 2 cs with
      | some (oh, cs) =>
        match expectChar ':' cs with
        | some cs =>
          match readDigits 0 2 cs with
          | some (om, []) =>
            if oh < 24 ∧ om < 60 then
              some ((if c = '-' then -1 else 1) * (oh * 60 + om))
            else none
          | _ => none
        | none => none
      | none => none
    else none

/-- Parse `YYYY-MM-DDTHH:MM:SS[.ffffff][Z|±HH:MM]` into an aware datetime
(offsetless input is taken as UTC).  Returns `none` on anything else. -/
def parseIsoChars (cs : List Char) : Option DT := do
  let (y, cs) ← readDigits 0 4 cs
  let cs ← expectChar '-' cs
  let (mo, cs) ← readDigits 0 2 cs
  let cs ← expectChar '-' cs
  let (d, cs) ← readDigits 0 2 cs
  let cs ← expectChar 'T' cs
  let (h, cs) ← readDigits 0 2 cs
  let cs ← expectChar ':' cs
  let (mi, cs) ← readDigits 0 2 cs
  let cs ← expectChar ':' cs
  let (s, cs) ← readDigits 0 2 cs
  let off ← readOffset (dropFraction cs)
  if 1 ≤ mo ∧ mo ≤ 12 ∧ 1 ≤ d ∧ d ≤ 31 ∧ h < 24 ∧ mi < 60 ∧ s < 60 then
    some ⟨daysFromCivil y mo d * 86400 + (h * 3600 + mi * 60 + s : Nat) - off * 60, off⟩
  else none

/-- Modelled from the spec: `parse_iso8601` from
`bookmark_manager/utils/datetime_utils.py`, which is not under `src/`.
Per the spec, "parsing accepts an ISO-8601 string (with or without an
explicit offset)" and an unparseable timestamp string (or a `None`
argument) fails with a `ValidationError`; the value is interpretable in
UTC regardless of the timezone of the input string. -/
def parse_iso8601 : Option String → Except PyError DT
  | none => .error .validationError
  | some s =>
    match parseIsoChars s.data with
    | some dt => .ok dt
    | none => .error .validationError

mutual
/-- The `Bookmark` entity: columns `id` (generated on insert, absent before),
`title`, `url`, `notes`, `_modified` (column `nullable=False`, and always
assigned a parsed datetime by `__init__`), `_created` (may be left unset),
and the eagerly loaded many-to-many `tags` relationship. -/
inductive Bookmark where
  | mk (id : Option Int) (title url notes : String) (_modified : DT)
      (_created : Option DT) (tags : List Tag)

/-- The `Tag` entity: columns `id` and `name` (unique), and the lazily loaded
many-to-many `bookmarks` relationship. -/
inductive Tag where
  | mk (id : Option Int) (name : String) (bookmarks : List Bookmark)
end

def Bookmark.id : Bookmark → Option Int
  | .mk i _ _ _ _ _ _ => i

def Bookmark.title : Bookmark → String
  | .mk _ t _ _ _ _ _ => t

def Bookmark.url : Bookmark → String
  | .mk _ _ u _ _ _ _ => u

def Bookmark.notes : Bookmark → String
  | .mk _ _ _ n _ _ _ => n

def Bookmark._modified : Bookmark → DT
  | .mk _ _ _ _ m _ _ => m

def Bookmark._created : Bookmark → Option DT
  | .mk _ _ _ _ _ c _ => c

def Bookmark.tags : Bookmark → List Tag
  | .mk _ _ _ _ _ _ ts => ts

def Tag.id : Tag → Option Int
  | .mk i _ _ => i

def Tag.name : Tag → String
  | .mk _ n _ => n

def Tag.bookmarks : Tag → List Bookmark
  | .mk _ _ bs => bs

/-- Values of a serialized mapping.  `bookmarkV` embeds a raw (unserialized)
`Bookmark` entity, which `Tag.dump` places directly in its output. -/
inductive Val where
  | null
  | int (n : Int)
  | str (s : String)
  | list (xs : List Val)
  | dict (d : List (String × Val))
  | bookmarkV (b : Bookmark)

/-- Python truthiness of a mapping value (`None`, `""`, `[]`, `{}`, `0` are
falsy; entity objects are truthy). -/
def truthy : Val → Bool
  | .null => false
  | .int n => n != 0
  | .str s => s != ""
  | .list xs => !xs.isEmpty
  | .dict d => !d.isEmpty
  | .bookmarkV _ => true

/-- Modelled from the spec: `filter_dict` from `bookmark_manager/utils/utils.py`,
which is not under `src/`.  Per the spec, "given a base mapping and a list of
keys considered 'omit if falsy', remove any listed key whose value is empty
(empty string, empty list, or equivalent).  All other keys are always
included, even if null."  The source calls it as `filter_dict(dict, *keys)`. -/
def filter_dict (d : List (String × Val)) (keys : List String) : List (String × Val) :=
  d.filter (fun kv => !(keys.contains kv.1) || truthy kv.2)

/-- Render a possibly-absent integer id as Python renders `self.id`
(`None` becomes null). -/
def optIntVal : Option Int → Val
  | none => .null
  | some n => .int n

/-- `Tag.dump`: `filter_dict({'id': ..., 'name': ..., 'bookmarks': self.bookmarks})`
with no omit-if-falsy keys listed; `bookmarks` is the raw entity list. -/
def Tag.dump (t : Tag) : List (String × Val) :=
  filter_dict
    [("id", optIntVal t.id),
     ("name", .str t.name),
     ("bookmarks", .list (t.bookmarks.map Val.bookmarkV))]
    []

/-- The `modified` property: `self._modified.astimezone(tzutc())`.
`_modified` is never `None` for a constructed entity, so this is total. -/
def Bookmark.modified (b : Bookmark) : DT := astimezoneUtc b._modified

/-- The `created` property: `self._created.astimezone(tzutc())`.  When
`_created` is unset (`None`), the unguarded attribute access raises
(`AttributeError` on `NoneType`). -/
def Bookmark.created (b : Bookmark) : Except PyError DT :=
  match b._created with
  | none => .error .attributeError
  | some dt => .ok (astimezoneUtc dt)

/-- `Bookmark.dump`: the seven-entry mapping passed through
`filter_dict(..., 'tags', 'notes')`.  `modified` goes through the property
(already UTC) and another `astimezone(tzutc())`; `created` reads `_created`
directly with a truthiness guard; `tags` recursively dumps each tag. -/
def Bookmark.dump (b : Bookmark) : List (String × Val) :=
  filter_dict
    [("id", optIntVal b.id),
     ("title", .str b.title),
     ("url", .str b.url),
     ("notes", .str b.notes),
     ("modified",
       if dtTruthy b.modified then .str (isoformat (astimezoneUtc b.modified)) else .null),
     ("created",
       match b._created with
       | some dt => if dtTruthy dt then .str (isoformat (astimezoneUtc dt)) else .null
       | none => .null),
     ("tags", .list (b.tags.map (fun t => .dict t.dump)))]
    ["tags", "notes"]

/-- The value of `datetime.now(tzutc())` at module import time.  The default
arguments of `Bookmark.__init__` are the expression
`datetime.now(tzutc()).isoformat()`, which Python evaluates once, when the
`def` statement executes — not at each call.  Its value is one fixed
timestamp; we model it as an arbitrary fixed instant. -/
def importTime : DT := ⟨1640995200, 0⟩

/-- The fixed default-argument string `datetime.now(tzutc()).isoformat()`
shared by every construction that omits `modified` or `created`. -/
def importTimestampStr : String := isoformat importTime

/-- `Bookmark.__init__`: sets `title`, `url`, `notes`, `tags`;
`_modified := parse_iso8601(modified)` (so an explicit `None` or an
unparseable string raises); `_created := parse_iso8601(created)` unless
`created is None`, in which case no value is set.  `id` is unset until the
entity is inserted. -/
def Bookmark.init (title url : String) (notes : String := "")
    (modified : Option String := some importTimestampStr)
    (created : Option String := some importTimestampStr)
    (tags : List Tag := []) : Except PyError Bookmark :=
  match parse_iso8601 modified with
  | .error e => .error e
  | .ok m =>
    match created with
    | none => .ok (Bookmark.mk none title url notes m none tags)
    | some s =>
      match parse_iso8601 (some s) with
      | .error e => .error e
      | .ok c => .ok (Bookmark.mk none title url notes m (some c) tags)

/-- The declared columns of the `Tag` class body. -/
def tagColumns : List String := ["id", "name"]

/-- The declared relationships of the `Tag` class body. -/
def tagRelationships : List String := ["bookmarks"]

/-- The attribute assignments performed by `Tag.__init__(self, name)`, in
order: `self.name = name` and then `self.tags = []` (the latter annotated
"SQLAlchemy backref" in the source, though `Tag` declares no `tags`
attribute — its relationship is `bookmarks`, which `__init__` never touches). -/
def tagInitWrites (name : String) : List (String × Val) :=
  [("name", .str name), ("tags", .list [])]

/-- `Tag.__init__` as an entity constructor: a fresh tag has no id, the given
name, and an empty (ORM-default) `bookmarks` collection. -/
def Tag.init (name : String) : Tag := Tag.mk none name []

structure BookmarkFields where
  title : Option String := none
  url : Option String := none
  notes : Option String := none
  /-- `none` means the field is absent, so the default applies. -/
  modified : Option String := none
  /-- Outer `none`: absent (default applies); `some none`: explicit null;
  `some (some s)`: a timestamp string. -/
  created : Option (Option String) := none

/-- Modelled from the spec: the Entity Store operation `create(fields)`,
whose implementation (request-handling glue above the models) is not under
`src/`.  Per the spec it "constructs a new entity instance with validated
required fields (`title`+`url` for Bookmark)" and "fails with a
`ValidationError` if a required field is missing or a timestamp string
cannot be parsed as ISO-8601"; construction is
`new Bookmark(title, url, notes="", modified=<iso8601|default-now>,
created=<iso8601|null|default-now>, tags=[])`. -/
def createBookmark (f : BookmarkFields) : Except PyError Bookmark :=
  match f.title, f.url with
  | some title, some url =>
    Bookmark.init title url (f.notes.getD "")
      (some (f.modified.getD importTimestampStr))
      (match f.created with
       | none => some importTimestampStr
       | some none => none
       | some (some s) => some s)
      []
  | _, _ => .error .validationError

/-- Modelled from the spec: `create(fields)` for `Tag` (`name` required),
failing with a `ValidationError` when `name` is missing. -/
def createTag (name : Option String) : Except PyError Tag :=
  match name with
  | some n => .ok (Tag.init n)
  | none => .error .validationError

/-- The validity condition the spec states for `create(fields)`: required
fields present (`title`+`url`) and every supplied timestamp string
parseable as ISO-8601. -/
def bookmarkFieldsOk (f : BookmarkFields) : Bool :=
  f.title.isSome && f.url.isSome &&
  (match f.modified with
   | none => true
   | some s => (parse_iso8601 (some s)).isOk) &&
  (match f.created with
   | none => true
   | some none => true
   | some (some s) => (parse_iso8601 (some s)).isOk)

/-- No two persisted tags share a name. -/
def distinctTagNames (st : List Tag) : Prop :=
  st.Pairwise (fun a b => a.name ≠ b.name)

/-- Modelled from the spec: the Entity Store `save` for tags (the
persistence layer is the ORM, not under `src/`).  Per the spec, `save`
"fails with a `ConstraintViolation` if a unique constraint (tag name) is
violated" — `name` is declared `unique=True`. -/
def saveTag (st : List Tag) (t : Tag) : Except PyError (List Tag) :=
  if st.any (fun u => u.name == t.name) then .error .constraintViolation
  else .ok (st ++ [t])

/-- Modelled from the spec: the Entity Store `delete` for tags, which
"fails with `NotFoundError` if the entity no longer exists". -/
def deleteTag (st : List Tag) (i : Option Int) : Except PyError (List Tag) :=
  if st.any (fun u => u.id == i) then .ok (st.filter (fun u => !(u.id == i)))
  else .error .notFoundError

/-!
## Theorems
-/

/-- The fixed default-argument string parses back to the import-time instant. -/
theorem parse_importTimestampStr : parse_iso8601 (some importTimestampStr) = .ok importTime := rfl

/-- Construction with both timestamps defaulted always succeeds and yields the
import-time timestamp for both fields. -/
theorem init_default (title url : String) :
    Bookmark.init title url =
      .ok (Bookmark.mk none title url "" importTime (some importTime) []) := rfl

/-- Claim C2 counterexample: a tag whose `bookmarks` list is empty still has
the key `bookmarks` in its dump (with value the empty raw list), so the key is
not omitted exactly when the list is empty. -/
theorem tag_dump_empty_bookmarks_not_omitted :
    (Tag.mk (some 1) "work" []).bookmarks = [] ∧
    "bookmarks" ∈ ((Tag.mk (some 1) "work" []).dump.map Prod.fst) ∧
    List.lookup "bookmarks" (Tag.mk (some 1) "work" []).dump = some (.list []) := by
  refine ⟨rfl, ?_, rfl⟩
  show "bookmarks" ∈ ["id", "name", "bookmarks"]
  decide

/-- Claim C2 (amended): `dump(Tag)` is always the three-entry mapping
`id, name, bookmarks`, in that order, where `bookmarks` is the raw
related-entity list (not recursively serialized); no key is ever omitted,
because the source passes no omit-if-falsy keys to `filter_dict`. -/
theorem tag_dump_shape (t : Tag) :
    t.dump = [("id", optIntVal t.id), ("name", .str t.name),
              ("bookmarks", .list (t.bookmarks.map Val.bookmarkV))] := by
  obtain ⟨i, n, bs⟩ := t
  rfl

/-- Claim C3: the default arguments for `modified` and `created` are the
expression `datetime.now(tzutc()).isoformat()` evaluated once when the `def`
statement runs, so every construction that omits them receives the same
import-time timestamp — two such constructions never get timestamps tied to
their own construction times. -/
theorem bookmark_default_timestamps_fixed_at_import
    (t₁ u₁ t₂ u₂ : String) :
    ∃ b₁ b₂, Bookmark.init t₁ u₁ = .ok b₁ ∧ Bookmark.init t₂ u₂ = .ok b₂ ∧
      b₁._modified = importTime ∧ b₂._modified = importTime ∧
      b₁._modified = b₂._modified ∧ b₁._created = some importTime ∧
      b₂._created = some importTime :=
  ⟨_, _, rfl, rfl, rfl, rfl, rfl, rfl, rfl⟩

/-- Claim C9: construction from a `(title, url)` pair followed by `dump`
returns `title` and `url` unchanged — both for arbitrary successful
constructions and for the default construction. -/
theorem bookmark_title_url_roundtrip :
    (∀ title url notes modified created tags b,
        Bookmark.init title url notes modified created tags = .ok b →
        List.lookup "title" b.dump = some (.str title) ∧
        List.lookup "url" b.dump = some (.str url)) ∧
    (∀ title url, ∃ b, Bookmark.init title url = .ok b ∧
        List.lookup "title" b.dump = some (.str title) ∧
        List.lookup "url" b.dump = some (.str url)) := by
  constructor
  · intro title url notes modified created tags b h
    obtain ⟨i, t, u, n, m, c, tg⟩ := b
    have ht : t = title ∧ u = url := by
      unfold Bookmark.init at h
      split at h
      · exact Except.noConfusion h
      · split at h
        · simp at h
          exact ⟨h.2.1.symm, h.2.2.1.symm⟩
        · split at h
          · exact Except.noConfusion h
          · simp at h
            exact ⟨h.2.1.symm, h.2.2.1.symm⟩
    obtain ⟨ht, hu⟩ := ht
    subst ht hu
    simp [Bookmark.dump, filter_dict, Bookmark.id, Bookmark.title, Bookmark.url,
      Bookmark.notes, Bookmark.tags, List.lookup]
  · intro title url
    exact ⟨_, rfl, rfl, rfl⟩

/-- Witness for C9 at a concrete `(title, url)` pair. -/
theorem bookmark_title_url_roundtrip_witness :
    List.lookup "title" (Bookmark.mk none "a" "b" "" importTime (some importTime) []).dump
      = some (.str "a") ∧
    List.lookup "url" (Bookmark.mk none "a" "b" "" importTime (some importTime) []).dump
      = some (.str "b") :=
  bookmark_title_url_roundtrip.1 "a" "b" "" (some importTimestampStr)
    (some importTimestampStr) [] (Bookmark.mk none "a" "b" "" importTime (some importTime) [])
    (by rfl)

/-- Claim C10: `Tag.__init__(name)` performs exactly the attribute writes
`name` and `tags`, assigning the empty list to `tags`; it never touches the
`bookmarks` relationship, and `tags` is neither a declared column nor a
declared relationship of `Tag`. -/
theorem tag_init_writes_stray_tags_attribute (name : String) :
    (tagInitWrites name).map Prod.fst = ["name", "tags"] ∧
    List.lookup "tags" (tagInitWrites name) = some (.list []) ∧
    "bookmarks" ∉ (tagInitWrites name).map Prod.fst ∧
    "tags" ∉ tagColumns ∧ "tags" ∉ tagRelationships := by
  refine ⟨rfl, rfl, ?_, by decide, by decide⟩
  simp [tagInitWrites]

/-- Claim C1: `dump(Bookmark)` always contains the keys `id`, `title`, `url`,
`modified`, `created`; it omits `notes` exactly when notes is the empty
string and `tags` exactly when the tag list is empty; when present, `tags`
is the list of recursive tag dumps. -/
theorem bookmark_dump_omission_law (b : Bookmark) :
    "id" ∈ b.dump.map Prod.fst ∧ "title" ∈ b.dump.map Prod.fst ∧
    "url" ∈ b.dump.map Prod.fst ∧ "modified" ∈ b.dump.map Prod.fst ∧
    "created" ∈ b.dump.map Prod.fst ∧
    ("notes" ∈ b.dump.map Prod.fst ↔ b.notes ≠ "") ∧
    ("tags" ∈ b.dump.map Prod.fst ↔ b.tags ≠ []) ∧
    (b.tags ≠ [] →
      List.lookup "tags" b.dump = some (.list (b.tags.map (fun t => .dict t.dump)))) := by
  obtain ⟨i, t, u, n, m, c, tg⟩ := b
  by_cases hn : n = "" <;> by_cases ht : tg = [] <;>
    simp [Bookmark.dump, filter_dict, Bookmark.id, Bookmark.title, Bookmark.url,
      Bookmark.notes, Bookmark.tags, truthy, hn, ht, List.lookup]

/-- Witness for C1 at a bookmark with one tag and non-empty notes. -/
theorem bookmark_dump_omission_law_witness :
    List.lookup "tags"
        (Bookmark.mk none "t" "u" "x" importTime (some importTime) [Tag.mk none "work" []]).dump
      = some (.list [.dict (Tag.mk none "work" []).dump]) :=
  (bookmark_dump_omission_law
      (Bookmark.mk none "t" "u" "x" importTime (some importTime) [Tag.mk none "work" []])).2.2.2.2.2.2.2
    (by simp [Bookmark.tags])

/-- Claim C4: constructing a bookmark with `created` explicitly `None` leaves
`_created` unset, and `dump` still includes the `created` key, with value
null. -/
theorem bookmark_created_none_unset
    (title url notes : String) (modified : Option String) (tags : List Tag) (b : Bookmark)
    (h : Bookmark.init title url notes modified none tags = .ok b) :
    b._created = none ∧ "created" ∈ b.dump.map Prod.fst ∧
    List.lookup "created" b.dump = some .null := by
  unfold Bookmark.init at h
  split at h
  · exact Except.noConfusion h
  · injection h with h
    subst h
    refine ⟨rfl, ?_, ?_⟩ <;>
      by_cases hn : notes = "" <;> by_cases ht : tags = [] <;>
        simp [Bookmark.dump, filter_dict, Bookmark.id, Bookmark.title, Bookmark.url,
          Bookmark.notes, Bookmark.tags, Bookmark._created, truthy, hn, ht, List.lookup]

/-- Witness for C4 at a concrete construction with `created=None`. -/
theorem bookmark_created_none_unset_witness :
    ∃ b, Bookmark.init "t" "u" "" (some importTimestampStr) none [] = .ok b ∧
      b._created = none ∧ List.lookup "created" b.dump = some .null := by
  refine ⟨Bookmark.mk none "t" "u" "" importTime none [], rfl, ?_⟩
  have h := bookmark_created_none_unset "t" "u" "" (some importTimestampStr) []
    (Bookmark.mk none "t" "u" "" importTime none []) rfl
  exact ⟨h.1, h.2.2⟩

/-- Claim C6: when `_created` is unset, the public `created` property raises
(`AttributeError` from the unguarded `None.astimezone`), while `dump`, which
reads `_created` directly with a guard, renders the key as null. -/
theorem bookmark_created_property_raises (b : Bookmark) (h : b._created = none) :
    b.created = .error .attributeError ∧
    "created" ∈ b.dump.map Prod.fst ∧
    List.lookup "created" b.dump = some .null := by
  obtain ⟨i, t, u, n, m, c, tg⟩ := b
  simp only [Bookmark._created] at h
  subst h
  refine ⟨rfl, ?_, ?_⟩ <;>
    by_cases hn : n = "" <;> by_cases ht : tg = [] <;>
      simp [Bookmark.dump, filter_dict, Bookmark.id, Bookmark.title, Bookmark.url,
        Bookmark.notes, Bookmark.tags, Bookmark._created, truthy, hn, ht, List.lookup]

/-- Witness for C6 at a concrete bookmark with unset `_created`. -/
theorem bookmark_created_property_raises_witness :
    (Bookmark.mk none "t" "u" "" importTime none []).created = .error .attributeError ∧
    List.lookup "created" (Bookmark.mk none "t" "u" "" importTime none []).dump = some .null := by
  have h := bookmark_created_property_raises (Bookmark.mk none "t" "u" "" importTime none []) rfl
  exact ⟨h.1, h.2.2⟩

/-- Claim C5: a timestamp stored from an ISO-8601 string with an explicit
offset is rendered by `dump` as the same instant converted to UTC offset
zero, in ISO-8601 form; in particular `created="2021-01-01T00:00:00-05:00"`
dumps as `"2021-01-01T05:00:00+00:00"`, and likewise for `modified`. -/
theorem bookmark_dump_renders_utc :
    (∀ title url s dt b,
        parse_iso8601 (some s) = .ok dt →
        Bookmark.init title url "" (some importTimestampStr) (some s) [] = .ok b →
        List.lookup "created" b.dump = some (.str (isoformat (astimezoneUtc dt))) ∧
        (astimezoneUtc dt).instant = dt.instant ∧ (astimezoneUtc dt).offset = 0) ∧
    (∀ title url s dt b,
        parse_iso8601 (some s) = .ok dt →
        Bookmark.init title url "" (some s) (some importTimestampStr) [] = .ok b →
        List.lookup "modified" b.dump = some (.str (isoformat (astimezoneUtc dt)))) ∧
    (∃ b, Bookmark.init "t" "u" "" (some importTimestampStr)
            (some "2021-01-01T00:00:00-05:00") [] = .ok b ∧
        List.lookup "created" b.dump = some (.str "2021-01-01T05:00:00+00:00")) ∧
    (∃ b, Bookmark.init "t" "u" "" (some "2021-01-01T00:00:00-05:00")
            (some importTimestampStr) [] = .ok b ∧
        List.lookup "modified" b.dump = some (.str "2021-01-01T05:00:00+00:00")) := by
  refine ⟨?_, ?_, ⟨_, rfl, rfl⟩, ⟨_, rfl, rfl⟩⟩
  · intro title url s dt b h1 h2
    simp only [Bookmark.init, parse_importTimestampStr, h1] at h2
    injection h2 with h2
    subst h2
    exact ⟨rfl, rfl, rfl⟩
  · intro title url s dt b h1 h2
    simp only [Bookmark.init, parse_importTimestampStr, h1] at h2
    injection h2 with h2
    subst h2
    rfl

/-- Witness for C5 at the concrete offset timestamp of the spec. -/
theorem bookmark_dump_renders_utc_witness :
    List.lookup "created"
        (Bookmark.mk none "t" "u" "" importTime (some ⟨1609477200, -300⟩) []).dump
      = some (.str (isoformat (astimezoneUtc ⟨1609477200, -300⟩))) ∧
    (astimezoneUtc (⟨1609477200, -300⟩ : DT)).offset = 0 :=
  have h := bookmark_dump_renders_utc.1 "t" "u" "2021-01-01T00:00:00-05:00"
    ⟨1609477200, -300⟩ (Bookmark.mk none "t" "u" "" importTime (some ⟨1609477200, -300⟩) [])
    (by rfl) (by rfl)
  ⟨h.1, h.2.2⟩

/-- `parse_iso8601` only ever fails with a `ValidationError`. -/
theorem parse_iso8601_error_eq (o : Option String) (e : PyError)
    (h : parse_iso8601 o = .error e) : e = .validationError := by
  cases o with
  | none =>
    simp [parse_iso8601] at h
    exact h.symm
  | some s =>
    have h' : (match parseIsoChars s.data with
               | some dt => Except.ok (ε := PyError) dt
               | none => Except.error PyError.validationError) = Except.error e := h
    cases hp : parseIsoChars s.data with
    | some dt =>
      rw [hp] at h'
      exact Except.noConfusion h'
    | none =>
      rw [hp] at h'
      injection h' with h''
      exact h''.symm

/-- `Bookmark.__init__` only ever fails with a `ValidationError`. -/
theorem init_error_eq (title url notes : String) (modified created : Option String)
    (tags : List Tag) (e : PyError)
    (h : Bookmark.init title url notes modified created tags = .error e) :
    e = .validationError := by
  unfold Bookmark.init at h
  split at h
  · rename_i e' he
    injection h with h
    subst h
    exact parse_iso8601_error_eq _ _ he
  · split at h
    · exact Except.noConfusion h
    · split at h
      · rename_i e' he
        injection h with h
        subst h
        exact parse_iso8601_error_eq _ _ he
      · exact Except.noConfusion h

/-- `Bookmark.__init__` succeeds exactly when `modified` parses (it is never
`None` for calls coming from `create`) and `created` is `None` or parses. -/
theorem init_isOk_iff (title url notes : String) (modified created : Option String)
    (tags : List Tag) :
    (∃ b, Bookmark.init title url notes modified created tags = .ok b) ↔
      ((parse_iso8601 modified).isOk = true ∧
       (match created with
        | none => True
        | some s => (parse_iso8601 (some s)).isOk = true)) := by
  unfold Bookmark.init
  cases hm : parse_iso8601 modified with
  | error e => simp [Except.isOk, Except.toBool]
  | ok m =>
    cases created with
    | none => simp [Except.isOk, Except.toBool]
    | some s =>
      cases hc : parse_iso8601 (some s) with
      | error e => simp [hc, Except.isOk, Except.toBool]
      | ok c => simp [hc, Except.isOk, Except.toBool]

/-- `create(fields)` for bookmarks succeeds exactly on valid field sets. -/
theorem createBookmark_ok_iff (f : BookmarkFields) :
    (∃ b, createBookmark f = .ok b) ↔ bookmarkFieldsOk f = true := by
  obtain ⟨title, url, notes, mod, cre⟩ := f
  cases title with
  | none => simp [createBookmark, bookmarkFieldsOk]
  | some t =>
    cases url with
    | none => simp [createBookmark, bookmarkFieldsOk]
    | some u =>
      simp only [createBookmark]
      rw [init_isOk_iff]
      rcases cre with _ | cc
      · cases mod <;>
          simp [bookmarkFieldsOk, parse_importTimestampStr, Except.isOk, Except.toBool]
      · rcases cc with _ | s <;> cases mod <;>
          simp [bookmarkFieldsOk, parse_importTimestampStr, Except.isOk, Except.toBool]

/-- `create(fields)` for bookmarks only ever fails with a `ValidationError`. -/
theorem createBookmark_error_eq (f : BookmarkFields) (e : PyError)
    (h : createBookmark f = .error e) : e = .validationError := by
  unfold createBookmark at h
  split at h
  · exact init_error_eq _ _ _ _ _ _ _ h
  · simp at h
    exact h.symm

/-- Claim C7: entity construction via `create(fields)` fails with a
`ValidationError` exactly when a required field (`title`/`url` for Bookmark,
`name` for Tag) is missing or a supplied timestamp string does not parse as
ISO-8601, and succeeds on every other input. -/
theorem create_validates :
    (∀ f, (∃ b, createBookmark f = .ok b) ↔ bookmarkFieldsOk f = true) ∧
    (∀ f, bookmarkFieldsOk f = false → createBookmark f = .error .validationError) ∧
    (∀ n, (∃ t, createTag n = .ok t) ↔ n.isSome = true) ∧
    createTag none = .error .validationError := by
  refine ⟨createBookmark_ok_iff, ?_, ?_, rfl⟩
  · intro f hf
    cases hcb : createBookmark f with
    | ok b =>
      have : bookmarkFieldsOk f = true := (createBookmark_ok_iff f).mp ⟨b, hcb⟩
      rw [this] at hf
      exact Bool.noConfusion hf
    | error e =>
      have he := createBookmark_error_eq f e hcb
      subst he
      rfl
  · intro n
    cases n <;> simp [createTag, Tag.init]

/-- Witness for C7: a field set missing `title` is rejected, and one with a
bad `created` timestamp is rejected. -/
theorem create_validates_witness :
    createBookmark { url := some "u" } = .error .validationError ∧
    createBookmark { title := some "t", url := some "u",
                     created := some (some "not a date") } = .error .validationError := by
  constructor
  · exact create_validates.2.1 { url := some "u" } rfl
  · exact create_validates.2.1
      { title := some "t", url := some "u", created := some (some "not a date") } (by rfl)

/-- Claim C8: tag names are globally unique — saving a tag whose name is
already persisted fails with `ConstraintViolation`, and the
no-duplicate-names invariant is preserved by `save` and `delete`. -/
theorem tag_name_unique :
    (∀ st t t', t ∈ st → t'.name = t.name →
        saveTag st t' = .error .constraintViolation) ∧
    (∀ st t st', distinctTagNames st → saveTag st t = .ok st' → distinctTagNames st') ∧
    (∀ st i st', distinctTagNames st → deleteTag st i = .ok st' → distinctTagNames st') := by
  refine ⟨?_, ?_, ?_⟩
  · intro st t t' hmem hname
    unfold saveTag
    have hany : st.any (fun u => u.name == t'.name) = true :=
      List.any_eq_true.mpr ⟨t, hmem, by simp [hname]⟩
    simp [hany]
  · intro st t st' hd hs
    unfold saveTag at hs
    split at hs
    · exact Except.noConfusion hs
    · rename_i hany
      injection hs with hs
      subst hs
      unfold distinctTagNames at hd ⊢
      rw [List.pairwise_append]
      refine ⟨hd, List.pairwise_singleton _ _, ?_⟩
      intro a ha b hb
      have hb' : b = t := List.mem_singleton.mp hb
      subst hb'
      intro hcontra
      exact hany (List.any_eq_true.mpr ⟨a, ha, by simp [hcontra]⟩)
  · intro st i st' hd hs
    unfold deleteTag at hs
    split at hs
    · injection hs with hs
      subst hs
      exact List.Pairwise.sublist (List.filter_sublist st) hd
    · exact Except.noConfusion hs

/-- Witness for C8: a second tag named `"work"` is rejected. -/
theorem tag_name_unique_witness :
    saveTag [Tag.mk (some 1) "work" []] (Tag.mk none "work" [])
      = .error .constraintViolation :=
  tag_name_unique.1 [Tag.mk (some 1) "work" []] (Tag.mk (some 1) "work" [])
    (Tag.mk none "work" []) (List.mem_singleton.mpr rfl) rfl

end Bookie
